import Mathlib

set_option maxRecDepth 8192

/-
Shallow embedding of server.cpp, a remote command-execution service.
Strings are modelled as lists of characters (the C++ code works on bytes;
all characters relevant to the patterns are ASCII).  The std::regex
patterns of is_blocked_command are embedded by a small executable
backtracking matcher over an abstract-syntax type RE that covers exactly
the constructs those patterns use (character classes, literals,
concatenation, alternation, star over a class, option, the anchors ^ and $,
and the word boundary b), with ECMAScript semantics for regex_search.
-/

namespace CmdServer

/-- ASCII lowercasing of one character, what std::tolower does on the
byte strings of server.cpp in the default locale (to_lower_copy,
server.cpp lines 50-54). -/
def asciiLower (c : Char) : Char :=
  if 'A' ≤ c ∧ c ≤ 'Z' then Char.ofNat (c.toNat + 32) else c

/-- Embedding of to_lower_copy (server.cpp lines 50-54). -/
def to_lower_copy (s : List Char) : List Char := s.map asciiLower

/-- Whitespace test of std::isspace in the default locale: space, tab,
newline, vertical tab, form feed, carriage return. -/
def isSpaceC (c : Char) : Bool :=
  c == ' ' || c == '\t' || c == '\n' || c == Char.ofNat 11 ||
    c == Char.ofNat 12 || c == '\r'

/-- Embedding of trim_copy (server.cpp lines 42-48): drop leading and
trailing whitespace. -/
def trim_copy (s : List Char) : List Char :=
  ((s.dropWhile isSpaceC).reverse.dropWhile isSpaceC).reverse

/-- Word characters of ECMAScript regex (class w), used by the word
boundary b. -/
def isWordChar (c : Char) : Bool :=
  ('a' ≤ c ∧ c ≤ 'z') || ('A' ≤ c ∧ c ≤ 'Z') || ('0' ≤ c ∧ c ≤ '9') || c == '_'

/-- Wordness of the character just before the current position (none at
the start of the subject string). -/
def optWord : Option Char → Bool
  | none => false
  | some c => isWordChar c

/-- Wordness of the character at the current position (end of string
counts as non-word). -/
def headWord : List Char → Bool
  | [] => false
  | c :: _ => isWordChar c

/-- Regular-expression abstract syntax: exactly the constructs appearing
in the patterns of is_blocked_command (server.cpp lines 91-114). -/
inductive RE where
  | eps : RE
  | cls (p : Char → Bool) : RE
  | lit (cs : List Char) : RE
  | cat (a b : RE) : RE
  | alt (a b : RE) : RE
  | starCls (p : Char → Bool) : RE
  | opt (a : RE) : RE
  | bos : RE
  | eos : RE
  | wb : RE

/-- Backtracking match of a literal character sequence, in
continuation-passing style; the continuation receives the character just
consumed (for word boundaries) and the rest of the input. -/
def litMatch : List Char → Option Char → List Char → (Option Char → List Char → Bool) → Bool
  | [], prev, s, k => k prev s
  | c :: cs, _, s, k =>
    match s with
    | [] => false
    | d :: rest => d == c && litMatch cs (some d) rest k

/-- Backtracking match of a starred character class (greedy with
backtracking, in continuation-passing style). Every iteration consumes
one character, so recursion is structural on the input. -/
def starMatch (p : Char → Bool) : Option Char → List Char → (Option Char → List Char → Bool) → Bool
  | prev, [], k => k prev []
  | prev, c :: rest, k => (p c && starMatch p (some c) rest k) || k prev (c :: rest)

/-- Backtracking regex matcher in continuation-passing style. The
Option Char argument is the character immediately before the current
position (none at the start of the subject), which decides the anchors
and word boundaries. -/
def reMatch : RE → Option Char → List Char → (Option Char → List Char → Bool) → Bool
  | .eps, prev, s, k => k prev s
  | .cls p, _, s, k =>
    match s with
    | [] => false
    | c :: rest => p c && k (some c) rest
  | .lit cs, prev, s, k => litMatch cs prev s k
  | .cat a b, prev, s, k => reMatch a prev s (fun p2 s2 => reMatch b p2 s2 k)
  | .alt a b, prev, s, k => reMatch a prev s k || reMatch b prev s k
  | .starCls p, prev, s, k => starMatch p prev s k
  | .opt a, prev, s, k => reMatch a prev s k || k prev s
  | .bos, prev, s, k => prev.isNone && k prev s
  | .eos, prev, s, k => s.isEmpty && k prev s
  | .wb, prev, s, k => (optWord prev != headWord s) && k prev s

/-- Search for a match starting at the current position or any later one,
threading the preceding character for anchors and boundaries. -/
def searchFrom (re : RE) : Option Char → List Char → Bool
  | prev, s =>
    reMatch re prev s (fun _ _ => true) ||
      match s with
      | [] => false
      | c :: rest => searchFrom re (some c) rest

/-- Embedding of std::regex_search: does any position of the subject
start a match of the pattern. -/
def regexSearch (re : RE) (s : List Char) : Bool := searchFrom re none s

/-- Concatenation of a list of regexes. -/
def seqAll : List RE → RE
  | [] => RE.eps
  | [r] => r
  | r :: rest => RE.cat r (seqAll rest)

/-- Alternation of a nonempty list of regexes (empty list never matches;
it does not occur in the patterns below). -/
def altAll : List RE → RE
  | [] => RE.lit ['\x00']
  | [r] => r
  | r :: rest => RE.alt r (altAll rest)

/-- Literal string regex. -/
def rlit (s : String) : RE := RE.lit s.toList

/-- Single-character literal regex. -/
def rchar (c : Char) : RE := RE.cls (fun d => d == c)

/-- Command-separator class, the characters of the regex set [;&|]. -/
def isSep (c : Char) : Bool := c == ';' || c == '&' || c == '|'

/-- Complement class of [;&|], the regex set matching any character but a
separator. -/
def notSep (c : Char) : Bool := !(isSep c)

/-- ECMAScript class s (whitespace), restricted to the ASCII characters
that occur in byte strings. -/
def isWsRe (c : Char) : Bool := isSpaceC c

/-- ECMAScript class d (digits). -/
def isDigitRe (c : Char) : Bool := '0' ≤ c ∧ c ≤ '9'

/-- Class [a-z]. -/
def isLowerAlpha (c : Char) : Bool := 'a' ≤ c ∧ c ≤ 'z'

/-- Class [a-z0-9_+-] from the mkfs suffix pattern. -/
def isFsCh (c : Char) : Bool :=
  isLowerAlpha c || isDigitRe c || c == '_' || c == '+' || c == '-'

/-- Fragment (^|[;&|]) used to anchor a pattern at the start of the
string or right after a command separator. -/
def segStart : RE := RE.alt RE.bos (RE.cls isSep)

/-- Fragment s* . -/
def wsStar : RE := RE.starCls isWsRe

/-- Fragment s+ . -/
def wsPlus : RE := RE.cat (RE.cls isWsRe) (RE.starCls isWsRe)

/-- Fragment d+ . -/
def digPlus : RE := RE.cat (RE.cls isDigitRe) (RE.starCls isDigitRe)

/-- Fragment ($|[;&|]) ending a standalone argument. -/
def endOrSep : RE := RE.alt RE.eos (RE.cls isSep)

/-- Embedding of kRmRootRf1 (server.cpp lines 91-92): an rm invocation
whose flags contain r before f, targeting / or /* as a standalone
argument. -/
def kRmRootRf1 : RE :=
  seqAll [RE.wb, rlit "rm", RE.wb, RE.starCls notSep, rchar '-',
    RE.starCls notSep, rchar 'r', RE.starCls notSep, rchar 'f',
    RE.starCls notSep, wsPlus,
    RE.alt (seqAll [rchar '/', wsStar, endOrSep])
      (seqAll [rlit "/*", wsStar, endOrSep])]

/-- Embedding of kRmRootRf2 (server.cpp lines 93-94): same with f before
r. -/
def kRmRootRf2 : RE :=
  seqAll [RE.wb, rlit "rm", RE.wb, RE.starCls notSep, rchar '-',
    RE.starCls notSep, rchar 'f', RE.starCls notSep, rchar 'r',
    RE.starCls notSep, wsPlus,
    RE.alt (seqAll [rchar '/', wsStar, endOrSep])
      (seqAll [rlit "/*", wsStar, endOrSep])]

/-- Block-device path fragment /dev/(sd[a-z]d*|vd[a-z]d*|nvme d+n d+(p d+)?). -/
def devPath : RE :=
  altAll [seqAll [rlit "sd", RE.cls isLowerAlpha, RE.starCls isDigitRe],
    seqAll [rlit "vd", RE.cls isLowerAlpha, RE.starCls isDigitRe],
    seqAll [rlit "nvme", digPlus, rchar 'n', digPlus,
      RE.opt (RE.cat (rchar 'p') digPlus)]]

/-- Embedding of the category pattern table kBlockedPatterns
(server.cpp lines 100-114), in source order with its reasons. -/
def kBlockedPatterns : List (RE × String) :=
  [(seqAll [segStart, wsStar,
      altAll [rlit "shutdown", rlit "reboot", rlit "halt", rlit "poweroff"],
      RE.wb],
    "power control command"),
   (seqAll [segStart, wsStar, rlit "init", wsPlus,
      RE.cls (fun c => c == '0' || c == '6'), RE.wb],
    "runlevel switch command"),
   (seqAll [segStart, wsStar, rlit "systemctl", wsPlus,
      altAll [rlit "reboot", rlit "poweroff", rlit "halt"], RE.wb],
    "system power control command"),
   (seqAll [segStart, wsStar,
      altAll [RE.cat (rlit "mkfs")
          (RE.opt (seqAll [rchar '.', RE.cls isFsCh, RE.starCls isFsCh])),
        rlit "fdisk", rlit "sfdisk", rlit "parted", rlit "wipefs"],
      RE.wb],
    "disk formatting/partition command"),
   (seqAll [segStart, wsStar, rlit "dd", RE.wb],
    "raw disk copy command"),
   (seqAll [RE.wb, RE.alt (rlit "of") (rlit "if"), rlit "=/dev/", devPath,
      RE.wb],
    "block-device access argument"),
   (seqAll [segStart, wsStar, rchar ':', wsStar, rchar '>', wsStar,
      rlit "/dev/", devPath, RE.wb],
    "block-device overwrite"),
   (seqAll [segStart, wsStar, rlit "kill", wsPlus, rlit "-9", wsPlus,
      RE.opt (rchar '-'), rchar '1', RE.wb],
    "kill-all command")]

/-- Does the first list occur at the head of the second. -/
def hasPfx : List Char → List Char → Bool
  | [], _ => true
  | _ :: _, [] => false
  | c :: cs, d :: ds => c == d && hasPfx cs ds

/-- Substring containment, what std::string::find ≠ npos decides. -/
def containsSub (needle : List Char) : List Char → Bool
  | [] => hasPfx needle []
  | d :: rest => hasPfx needle (d :: rest) || containsSub needle rest

/-- The substring whose presence triggers the first validator rule. -/
def nprFlag : List Char := "--no-preserve-root".toList

/-- First pattern of the table matching the subject, with its reason:
the loop of server.cpp lines 116-121. -/
def firstMatch : List (RE × String) → List Char → Option String
  | [], _ => none
  | (re, reason) :: rest, s =>
    if regexSearch re s then some reason else firstMatch rest s

/-- Embedding of is_blocked_command (server.cpp lines 83-123). Instead of
a bool plus an out-parameter it returns the reason as an Option: some
reason exactly when the C++ function returns true and sets reason. -/
def is_blocked_command (command : List Char) : Option String :=
  let lower := to_lower_copy command
  if containsSub nprFlag lower then some "dangerous rm flag"
  else if regexSearch kRmRootRf1 lower || regexSearch kRmRootRf2 lower then
    some "root filesystem deletion"
  else firstMatch kBlockedPatterns lower

/-- Embedding of the per-character escaping done by json_escape
(server.cpp lines 26-40). -/
def esc_char (c : Char) : List Char :=
  if c = '"' then ['\\', '"']
  else if c = '\\' then ['\\', '\\']
  else if c = '\n' then ['\\', 'n']
  else if c = '\r' then ['\\', 'r']
  else if c = '\t' then ['\\', 't']
  else [c]

/-- Embedding of json_escape (server.cpp lines 26-40). -/
def json_escape : List Char → List Char
  | [] => []
  | c :: rest => esc_char c ++ json_escape rest

/-- Unescaping of one escaped character, the switch of
decode_json_string_like (server.cpp lines 68-78); an unknown escape
yields the character itself. -/
def unescape_char (n : Char) : Char :=
  if n = 'n' then '\n'
  else if n = 'r' then '\r'
  else if n = 't' then '\t'
  else if n = 'b' then '\x08'
  else if n = 'f' then '\x0c'
  else n

/-- Body loop of decode_json_string_like over the characters strictly
between the quotes (server.cpp lines 60-79): a backslash that is the last
character of the body is dropped (the loop breaks there), any other
backslash consumes the following character as an escape. -/
def decode_body : List Char → List Char
  | [] => []
  | c :: rest =>
    if c = '\\' then
      match rest with
      | [] => []
      | n :: rest2 => unescape_char n :: decode_body rest2
    else c :: decode_body rest

/-- Embedding of decode_json_string_like (server.cpp lines 56-81): if the
string has length at least two and starts and ends with a double quote,
decode the body between the quotes, otherwise return the string
unchanged. -/
def decode_json_string_like (s : List Char) : List Char :=
  if 2 ≤ s.length ∧ s.head? = some '"' ∧ s.getLast? = some '"' then
    decode_body ((s.drop 1).dropLast)
  else s

/-- Embedding of ExecResult (server.cpp lines 18-24). -/
structure ExecResult where
  ok : Bool
  exit_code : Int
  timed_out : Bool
  output : String
  error : String
deriving DecidableEq

/-- Observable side effects of one run_command call on the operating
system: whether a pipe was successfully created and whether a child
process was successfully spawned. -/
structure Effects where
  pipeCreated : Bool
  spawned : Bool
deriving DecidableEq

/-- How the child process ends as observed by waitpid: normal
termination with an 8-bit exit status (WIFEXITED and WEXITSTATUS), or
abnormal termination (killed by a signal). -/
inductive ChildOutcome where
  | exited (status : Fin 256)
  | signaled
deriving DecidableEq

/-- Abstraction of the operating-system behaviour run_command depends
on: whether pipe(2) succeeds, whether fork(2) succeeds, whether the
deadline elapses before the child terminates (the timeout branch of the
poll loop, server.cpp lines 175-180), how the child ends when it does
terminate in time, and the bytes captured from the pipe. -/
structure SysEnv where
  pipeOk : Bool
  forkOk : Bool
  childTimedOut : Bool
  outcome : ChildOutcome
  captured : String
deriving DecidableEq

/-- Embedding of run_command (server.cpp lines 125-193), with the
operating system abstracted by a SysEnv and the effects on it returned
alongside the ExecResult.  The exit-code derivation mirrors line 191:
-2 when timed out, the real 8-bit exit status on normal termination,
-1 on abnormal termination. -/
def run_command (env : SysEnv) (command : List Char) : ExecResult × Effects :=
  let trimmed := trim_copy command
  if trimmed.isEmpty then
    (⟨false, -1, false, "", "empty command"⟩, ⟨false, false⟩)
  else if 4096 < trimmed.length then
    (⟨false, -1, false, "", "command too long (max 4096 chars)"⟩, ⟨false, false⟩)
  else
    match is_blocked_command trimmed with
    | some reason =>
      (⟨false, -1, false, "", "blocked command: " ++ reason⟩, ⟨false, false⟩)
    | none =>
      if env.pipeOk = false then
        (⟨false, -1, false, "", "pipe failed"⟩, ⟨false, false⟩)
      else if env.forkOk = false then
        (⟨false, -1, false, "", "fork failed"⟩, ⟨true, false⟩)
      else
        let code : Int :=
          if env.childTimedOut then -2
          else
            match env.outcome with
            | .exited st => (st : Int)
            | .signaled => -1
        (⟨true, code, env.childTimedOut, env.captured, ""⟩, ⟨true, true⟩)

/-- Embedding of the parse_authorization lambda (server.cpp lines
209-216): trim the header value; if its lowercased form starts with
"bearer " drop those seven characters of the original and trim again;
otherwise the trimmed value itself is the presented token. -/
def parse_authorization (value : List Char) : List Char :=
  let auth := trim_copy value
  if auth.isEmpty then []
  else if hasPfx ("bearer ".toList) (to_lower_copy auth) then
    trim_copy (auth.drop 7)
  else auth

/-- Embedding of the authorize lambda (server.cpp lines 218-229): the
request is authorized exactly when the environment token is present and
the presented token equals it. -/
def authorize (envToken : Option (List Char)) (header : List Char) : Bool :=
  match envToken with
  | none => false
  | some t => if parse_authorization header = t then true else false

/-- Outcome of the POST /run handler relevant to the claims: rejected
with 401 before any command logic, rejected with 400 for a missing
command, or handed to run_command. -/
inductive RunOutcome where
  | unauthorized
  | missingCommand
  | ran (command : List Char) (result : ExecResult) (effects : Effects)
deriving DecidableEq

/-- Embedding of the POST /run handler (server.cpp lines 245-259):
authorization first, then body trimming and JSON-string unquoting, then
run_command. -/
def handle_run (envToken : Option (List Char)) (header body : List Char)
    (env : SysEnv) : RunOutcome :=
  if authorize envToken header = false then .unauthorized
  else
    let command := trim_copy (decode_json_string_like (trim_copy body))
    if command.isEmpty then .missingCommand
    else
      let r := run_command env command
      .ran command r.1 r.2

/-- Operating-system environment where everything succeeds and the child
exits normally with status 0 producing no output; used to instantiate the
theorems at concrete inputs. -/
def envDefault : SysEnv := ⟨true, true, false, .exited 0, ""⟩

/-! Helper lemmas shared by the claim theorems. -/

theorem run_command_empty (env : SysEnv) (cmd : List Char)
    (h : (trim_copy cmd).isEmpty = true) :
    run_command env cmd =
      (⟨false, -1, false, "", "empty command"⟩, ⟨false, false⟩) := by
  simp [run_command, h]

theorem run_command_too_long (env : SysEnv) (cmd : List Char)
    (h1 : (trim_copy cmd).isEmpty = false) (h2 : 4096 < (trim_copy cmd).length) :
    run_command env cmd =
      (⟨false, -1, false, "", "command too long (max 4096 chars)"⟩,
       ⟨false, false⟩) := by
  simp [run_command, h1, h2]

theorem run_command_blocked (env : SysEnv) (cmd : List Char) (r : String)
    (h1 : (trim_copy cmd).isEmpty = false) (h2 : ¬ 4096 < (trim_copy cmd).length)
    (h3 : is_blocked_command (trim_copy cmd) = some r) :
    run_command env cmd =
      (⟨false, -1, false, "", "blocked command: " ++ r⟩, ⟨false, false⟩) := by
  simp [run_command, h1, h2, h3]

theorem run_command_pipe_failed (env : SysEnv) (cmd : List Char)
    (h1 : (trim_copy cmd).isEmpty = false) (h2 : ¬ 4096 < (trim_copy cmd).length)
    (h3 : is_blocked_command (trim_copy cmd) = none)
    (hp : env.pipeOk = false) :
    run_command env cmd =
      (⟨false, -1, false, "", "pipe failed"⟩, ⟨false, false⟩) := by
  simp [run_command, h1, h2, h3, hp]

theorem run_command_fork_failed (env : SysEnv) (cmd : List Char)
    (h1 : (trim_copy cmd).isEmpty = false) (h2 : ¬ 4096 < (trim_copy cmd).length)
    (h3 : is_blocked_command (trim_copy cmd) = none)
    (hp : env.pipeOk = true) (hf : env.forkOk = false) :
    run_command env cmd =
      (⟨false, -1, false, "", "fork failed"⟩, ⟨true, false⟩) := by
  simp [run_command, h1, h2, h3, hp, hf]

theorem run_command_spawned (env : SysEnv) (cmd : List Char)
    (h1 : (trim_copy cmd).isEmpty = false) (h2 : ¬ 4096 < (trim_copy cmd).length)
    (h3 : is_blocked_command (trim_copy cmd) = none)
    (hp : env.pipeOk = true) (hf : env.forkOk = true) :
    run_command env cmd =
      (⟨true,
        (if env.childTimedOut then -2
         else
           match env.outcome with
           | .exited st => (st : Int)
           | .signaled => -1),
        env.childTimedOut, env.captured, ""⟩, ⟨true, true⟩) := by
  simp [run_command, h1, h2, h3, hp, hf]

theorem is_blocked_flag (cmd : List Char)
    (h : containsSub nprFlag (to_lower_copy cmd) = true) :
    is_blocked_command cmd = some "dangerous rm flag" := by
  simp [is_blocked_command, h]

theorem is_blocked_root (cmd : List Char)
    (h1 : containsSub nprFlag (to_lower_copy cmd) = false)
    (h2 : regexSearch kRmRootRf1 (to_lower_copy cmd) = true ∨
      regexSearch kRmRootRf2 (to_lower_copy cmd) = true) :
    is_blocked_command cmd = some "root filesystem deletion" := by
  rcases h2 with h | h <;> simp [is_blocked_command, h1, h]

theorem blocked_error_ne (r : String) : "blocked command: " ++ r ≠ "" := by
  intro h
  have hlen := congrArg String.length h
  simp [String.length_append] at hlen
  exact absurd hlen.1 (by decide)

theorem decode_body_cons_ne (c : Char) (l : List Char) (h : ¬ c = '\\') :
    decode_body (c :: l) = c :: decode_body l := by
  rw [decode_body.eq_def]
  simp only [if_neg h]

theorem decode_body_json_escape (s : List Char) :
    decode_body (json_escape s) = s := by
  induction s with
  | nil => rfl
  | cons c rest ih =>
    by_cases h1 : c = '"'
    · subst h1; simp [json_escape, esc_char, decode_body, unescape_char, ih]
    · by_cases h2 : c = '\\'
      · subst h2; simp [json_escape, esc_char, decode_body, unescape_char, ih]
      · by_cases h3 : c = '\n'
        · subst h3; simp [json_escape, esc_char, decode_body, unescape_char, ih]
        · by_cases h4 : c = '\r'
          · subst h4; simp [json_escape, esc_char, decode_body, unescape_char, ih]
          · by_cases h5 : c = '\t'
            · subst h5
              simp [json_escape, esc_char, decode_body, unescape_char, ih]
            · have he : esc_char c = [c] := by
                simp [esc_char, h1, h2, h3, h4, h5]
              rw [json_escape, he]
              simpa [decode_body_cons_ne c _ h2] using ih

theorem firstMatch_cons (re : RE) (reason : String) (tl : List (RE × String))
    (s : List Char) :
    firstMatch ((re, reason) :: tl) s =
      if regexSearch re s then some reason else firstMatch tl s := rfl

theorem firstMatch_eq_get (l : List (RE × String)) (s : List Char)
    (i : Fin l.length) (hm : regexSearch (l.get i).1 s = true)
    (hj : ∀ j : Fin l.length, j < i → regexSearch (l.get j).1 s = false) :
    firstMatch l s = some (l.get i).2 := by
  induction l with
  | nil => exact absurd i.isLt (by simp)
  | cons hd tl ih =>
    rcases hd with ⟨re, reason⟩
    cases i using Fin.cases with
    | zero =>
      simp only [List.get_cons_zero] at hm
      rw [firstMatch_cons, if_pos hm]
      rfl
    | succ i2 =>
      have h0 : regexSearch re s = false := by
        have := hj ⟨0, Nat.succ_pos _⟩ (by simp [Fin.lt_def])
        simpa using this
      rw [firstMatch_cons, if_neg (by simp [h0])]
      have hm2 : regexSearch (tl.get i2).1 s = true := hm
      show firstMatch tl s = some (tl.get i2).2
      exact ih i2 hm2 (fun j hjlt => by
        have := hj j.succ (Fin.succ_lt_succ_iff.mpr hjlt)
        simpa using this)

theorem firstMatch_isSome (l : List (RE × String)) (s : List Char)
    (i : Fin l.length) (hm : regexSearch (l.get i).1 s = true) :
    (firstMatch l s).isSome = true := by
  induction l with
  | nil => exact absurd i.isLt (by simp)
  | cons hd tl ih =>
    rcases hd with ⟨re, reason⟩
    by_cases h0 : regexSearch re s = true
    · rw [firstMatch_cons, if_pos h0]
      rfl
    · cases i using Fin.cases with
      | zero => simp only [List.get_cons_zero] at hm; exact absurd hm h0
      | succ i2 =>
        have hm2 : regexSearch (tl.get i2).1 s = true := hm
        rw [firstMatch_cons, if_neg h0]
        exact ih i2 hm2

theorem trim_copy_replicate (n : Nat) :
    trim_copy (List.replicate n 'a') = List.replicate n 'a' := by
  have hd : ∀ m : Nat, (List.replicate m 'a').dropWhile isSpaceC =
      List.replicate m 'a' := by
    intro m
    cases m with
    | zero => rfl
    | succ m2 => simp [List.replicate, List.dropWhile, isSpaceC]
  unfold trim_copy
  rw [hd n, List.reverse_replicate, hd n, List.reverse_replicate]

theorem is_blocked_eq_category (cmd : List Char)
    (i : Fin kBlockedPatterns.length)
    (h1 : containsSub nprFlag (to_lower_copy cmd) = false)
    (h2 : regexSearch kRmRootRf1 (to_lower_copy cmd) = false)
    (h3 : regexSearch kRmRootRf2 (to_lower_copy cmd) = false)
    (hm : regexSearch (kBlockedPatterns.get i).1 (to_lower_copy cmd) = true)
    (hj : ∀ j : Fin kBlockedPatterns.length, j < i →
      regexSearch (kBlockedPatterns.get j).1 (to_lower_copy cmd) = false) :
    is_blocked_command cmd = some (kBlockedPatterns.get i).2 := by
  simp only [is_blocked_command, h1, h2, h3]
  simp only [Bool.or_self, if_false, Bool.false_eq_true]
  exact firstMatch_eq_get _ _ i hm hj

theorem is_blocked_isSome_of_category (cmd : List Char)
    (i : Fin kBlockedPatterns.length)
    (hm : regexSearch (kBlockedPatterns.get i).1 (to_lower_copy cmd) = true) :
    (is_blocked_command cmd).isSome = true := by
  unfold is_blocked_command
  by_cases h1 : containsSub nprFlag (to_lower_copy cmd) = true
  · simp [h1]
  · have h1f : containsSub nprFlag (to_lower_copy cmd) = false := by
      simpa using h1
    by_cases h2 : (regexSearch kRmRootRf1 (to_lower_copy cmd) ||
        regexSearch kRmRootRf2 (to_lower_copy cmd)) = true
    · simp [h1f, h2]
    · have h2f : (regexSearch kRmRootRf1 (to_lower_copy cmd) ||
          regexSearch kRmRootRf2 (to_lower_copy cmd)) = false := by
        simpa using h2
      simp only [h1f, h2f, Bool.false_eq_true, if_false]
      exact firstMatch_isSome _ _ i hm


/-! Claim theorems. -/

/-- C2: the validator blocks "rm -rf /" and "rm -fr /*" with the
root-filesystem-deletion reason, and allows "rm -rf /tmp/foo". -/
theorem C2_rm_root_examples :
    is_blocked_command ("rm -rf /".toList) = some "root filesystem deletion" ∧
    is_blocked_command ("rm -fr /*".toList) = some "root filesystem deletion" ∧
    is_blocked_command ("rm -rf /tmp/foo".toList) = none := by
  decide

/-- C8: JSON string encoding and decoding round-trip: for every string s,
decode_json_string_like applied to json_escape s wrapped in double quotes
yields s back exactly. -/
theorem C8_json_roundtrip (s : List Char) :
    decode_json_string_like ('"' :: (json_escape s ++ ['"'])) = s := by
  have hlast : ('"' :: (json_escape s ++ ['"'])).getLast? = some '"' := by
    rw [← List.cons_append]
    exact List.getLast?_concat _
  have hcond : 2 ≤ ('"' :: (json_escape s ++ ['"'])).length ∧
      ('"' :: (json_escape s ++ ['"'])).head? = some '"' ∧
      ('"' :: (json_escape s ++ ['"'])).getLast? = some '"' :=
    ⟨by simp, rfl, hlast⟩
  unfold decode_json_string_like
  rw [if_pos hcond]
  have hmid : (('"' :: (json_escape s ++ ['"'])).drop 1).dropLast =
      json_escape s := by
    simp [List.dropLast_concat]
  rw [hmid, decode_body_json_escape]

/-- C3: the validator checks its rules in a fixed precedence order with
first match winning: the no-preserve-root substring first, then the two
root-filesystem delete patterns, then the category patterns in listed
order; a command matching an earlier rule gets the earlier reason even if
a later pattern also matches. -/
theorem C3_precedence (cmd : List Char) :
    (containsSub nprFlag (to_lower_copy cmd) = true →
      is_blocked_command cmd = some "dangerous rm flag") ∧
    (containsSub nprFlag (to_lower_copy cmd) = false →
      (regexSearch kRmRootRf1 (to_lower_copy cmd) = true ∨
       regexSearch kRmRootRf2 (to_lower_copy cmd) = true) →
      is_blocked_command cmd = some "root filesystem deletion") ∧
    (containsSub nprFlag (to_lower_copy cmd) = false →
      regexSearch kRmRootRf1 (to_lower_copy cmd) = false →
      regexSearch kRmRootRf2 (to_lower_copy cmd) = false →
      ∀ i : Fin kBlockedPatterns.length,
        regexSearch (kBlockedPatterns.get i).1 (to_lower_copy cmd) = true →
        (∀ j : Fin kBlockedPatterns.length, j < i →
          regexSearch (kBlockedPatterns.get j).1 (to_lower_copy cmd) = false) →
        is_blocked_command cmd = some (kBlockedPatterns.get i).2) := by
  refine ⟨fun h => is_blocked_flag cmd h, fun h1 h2 => is_blocked_root cmd h1 h2,
    fun h1 h2 h3 i hm hj => is_blocked_eq_category cmd i h1 h2 h3 hm hj⟩

/-- Witness for C3 at a concrete input: a command that contains the
no-preserve-root flag and also matches the root-delete pattern and a
category pattern is reported with the highest-precedence reason. -/
theorem C3_precedence_witness :
    is_blocked_command ("rm --no-preserve-root -rf /; shutdown".toList) =
      some "dangerous rm flag" ∧
    regexSearch kRmRootRf1
      (to_lower_copy ("rm --no-preserve-root -rf /; shutdown".toList)) = true :=
  ⟨(C3_precedence ("rm --no-preserve-root -rf /; shutdown".toList)).1 (by decide),
   by decide⟩

/-- C1 (amended): a command matching a category pattern is always blocked
and never reaches the operating system, and when no higher-precedence
rule (the no-preserve-root substring, the two root-delete patterns, or an
earlier-listed category) also matches, the reported reason is that
category's human-readable reason. -/
theorem C1_category_denylist (env : SysEnv) (cmd : List Char)
    (i : Fin kBlockedPatterns.length)
    (hm : regexSearch (kBlockedPatterns.get i).1
      (to_lower_copy (trim_copy cmd)) = true)
    (hne : (trim_copy cmd).isEmpty = false)
    (hlen : ¬ 4096 < (trim_copy cmd).length) :
    (is_blocked_command (trim_copy cmd)).isSome = true ∧
    (run_command env cmd).1.ok = false ∧
    (run_command env cmd).2 = ⟨false, false⟩ ∧
    (containsSub nprFlag (to_lower_copy (trim_copy cmd)) = false →
      regexSearch kRmRootRf1 (to_lower_copy (trim_copy cmd)) = false →
      regexSearch kRmRootRf2 (to_lower_copy (trim_copy cmd)) = false →
      (∀ j : Fin kBlockedPatterns.length, j < i →
        regexSearch (kBlockedPatterns.get j).1
          (to_lower_copy (trim_copy cmd)) = false) →
      is_blocked_command (trim_copy cmd) = some (kBlockedPatterns.get i).2 ∧
      run_command env cmd =
        (⟨false, -1, false, "",
          "blocked command: " ++ (kBlockedPatterns.get i).2⟩,
         ⟨false, false⟩)) := by
  have hsome := is_blocked_isSome_of_category (trim_copy cmd) i hm
  obtain ⟨r, hr⟩ := Option.isSome_iff_exists.mp hsome
  have hrun := run_command_blocked env cmd r hne hlen hr
  refine ⟨hsome, by rw [hrun], by rw [hrun], ?_⟩
  intro h1 h2 h3 hj
  have heq := is_blocked_eq_category (trim_copy cmd) i h1 h2 h3 hm hj
  exact ⟨heq, run_command_blocked env cmd _ hne hlen heq⟩

/-- Witness for C1 at a concrete input: a power-control command after a
benign prefix joined by a separator is blocked with the category reason
and run_command creates no pipe and spawns nothing. -/
theorem C1_category_denylist_witness :
    run_command envDefault ("echo ok; reboot now".toList) =
      (⟨false, -1, false, "", "blocked command: power control command"⟩,
       ⟨false, false⟩) := by
  have h := (C1_category_denylist envDefault ("echo ok; reboot now".toList)
      ⟨0, by decide⟩ (by decide) (by decide) (by decide)).2.2.2
      (by decide) (by decide) (by decide)
      (fun j hj => absurd hj (by simp [Fin.lt_def]))
  exact h.2.trans (by decide)

/-- Counterexample for C1 as stated: "dd if=/dev/sda" matches the
block-device category pattern, yet is_blocked_command reports the reason
of the earlier dd category, not that category's reason. -/
theorem C1_category_denylist_cex :
    regexSearch (kBlockedPatterns.get ⟨5, by decide⟩).1
      (to_lower_copy ("dd if=/dev/sda".toList)) = true ∧
    (kBlockedPatterns.get ⟨5, by decide⟩).2 = "block-device access argument" ∧
    is_blocked_command ("dd if=/dev/sda".toList) =
      some "raw disk copy command" ∧
    is_blocked_command ("dd if=/dev/sda".toList) ≠
      some "block-device access argument" := by
  refine ⟨by decide, by decide, by decide, by decide⟩

/-- C4 (amended): run_command checks its preconditions before any spawn
and in this order: empty trimmed command first (reason "empty command"),
then over-long trimmed command (reason "command too long (max 4096
chars)"), then the validator (reason "blocked command: <category>"); in
all three cases no pipe is created and no process is spawned. -/
theorem C4_precheck_order (env : SysEnv) (cmd : List Char) :
    ((trim_copy cmd).isEmpty = true →
      run_command env cmd =
        (⟨false, -1, false, "", "empty command"⟩, ⟨false, false⟩)) ∧
    ((trim_copy cmd).isEmpty = false → 4096 < (trim_copy cmd).length →
      run_command env cmd =
        (⟨false, -1, false, "", "command too long (max 4096 chars)"⟩,
         ⟨false, false⟩)) ∧
    (∀ r : String, (trim_copy cmd).isEmpty = false →
      ¬ 4096 < (trim_copy cmd).length →
      is_blocked_command (trim_copy cmd) = some r →
      run_command env cmd =
        (⟨false, -1, false, "", "blocked command: " ++ r⟩,
         ⟨false, false⟩)) :=
  ⟨fun h => run_command_empty env cmd h,
   fun h1 h2 => run_command_too_long env cmd h1 h2,
   fun r h1 h2 h3 => run_command_blocked env cmd r h1 h2 h3⟩

/-- Witness for C4 at concrete inputs: the empty command is rejected with
"empty command" and no effects. -/
theorem C4_precheck_order_witness :
    run_command envDefault ("   ".toList) =
      (⟨false, -1, false, "", "empty command"⟩, ⟨false, false⟩) :=
  (C4_precheck_order envDefault ("   ".toList)).1 (by decide)

/-- Counterexample for C4 as stated: a 4097-character command is rejected
with the reason "command too long (max 4096 chars)", not the exact reason
string "command too long" that the claim quotes. -/
theorem C4_precheck_order_cex :
    (run_command envDefault (List.replicate 4097 'a')).1.ok = false ∧
    (run_command envDefault (List.replicate 4097 'a')).1.error ≠
      "command too long" ∧
    (run_command envDefault (List.replicate 4097 'a')).1.error =
      "command too long (max 4096 chars)" := by
  have ht := trim_copy_replicate 4097
  have h1 : (trim_copy (List.replicate 4097 'a')).isEmpty = false := by
    rw [ht, List.replicate_succ]
    rfl
  have h2 : 4096 < (trim_copy (List.replicate 4097 'a')).length := by
    rw [ht, List.length_replicate]
    omega
  rw [run_command_too_long envDefault _ h1 h2]
  exact ⟨rfl, by decide, rfl⟩

/-- C5: for every execution that reaches the spawn stage, the exit code
is the reserved killed sentinel -2 with timedOut true when the deadline
elapsed, the child's real 8-bit exit status with timedOut false when the
child exited normally in time, and the reserved abnormal sentinel -1 when
it terminated abnormally; the sentinels are distinct from every real exit
status and from each other. -/
theorem C5_exit_code_derivation (env : SysEnv) (cmd : List Char)
    (hne : (trim_copy cmd).isEmpty = false)
    (hlen : ¬ 4096 < (trim_copy cmd).length)
    (hok : is_blocked_command (trim_copy cmd) = none)
    (hpipe : env.pipeOk = true) (hfork : env.forkOk = true) :
    (run_command env cmd).2.spawned = true ∧
    (env.childTimedOut = true →
      (run_command env cmd).1.exit_code = -2 ∧
      (run_command env cmd).1.timed_out = true) ∧
    (∀ st : Fin 256, env.childTimedOut = false → env.outcome = .exited st →
      (run_command env cmd).1.exit_code = (st : Int) ∧
      (run_command env cmd).1.timed_out = false ∧
      (st : Int) ≠ -2 ∧ (st : Int) ≠ -1) ∧
    (env.childTimedOut = false → env.outcome = .signaled →
      (run_command env cmd).1.exit_code = -1 ∧
      (run_command env cmd).1.timed_out = false ∧ (-1 : Int) ≠ -2) := by
  have hrun := run_command_spawned env cmd hne hlen hok hpipe hfork
  rw [hrun]
  refine ⟨rfl, fun ht => by simp [ht], fun st ht ho => ?_, fun ht ho => ?_⟩
  · have hnn : (0 : Int) ≤ (st : Int) := Int.natCast_nonneg st.val
    refine ⟨by simp [ht, ho], by simp [ht], by omega, by omega⟩
  · exact ⟨by simp [ht, ho], by simp [ht], by decide⟩

/-- Witness for C5 at a concrete input: "echo hi" with a child exiting
normally with status 3 yields exit code 3 and no timeout. -/
theorem C5_exit_code_derivation_witness :
    (run_command ⟨true, true, false, .exited 3, "hi\n"⟩ ("echo hi".toList)).1.exit_code = 3 ∧
    (run_command ⟨true, true, false, .exited 3, "hi\n"⟩ ("echo hi".toList)).1.timed_out = false := by
  have h := ((C5_exit_code_derivation ⟨true, true, false, .exited 3, "hi\n"⟩
      ("echo hi".toList) (by decide) (by decide) (by decide) rfl rfl).2.2.1
      3 rfl rfl)
  exact ⟨h.1.trans (by decide), h.2.1⟩

/-- C6: every ExecResult produced by run_command satisfies exactly one of
the two shapes: accepted with an empty failure reason, or rejected with a
nonempty failure reason. -/
theorem C6_result_invariant (env : SysEnv) (cmd : List Char) :
    ((run_command env cmd).1.ok = true ∧ (run_command env cmd).1.error = "") ∨
    ((run_command env cmd).1.ok = false ∧ (run_command env cmd).1.error ≠ "") := by
  by_cases h1 : (trim_copy cmd).isEmpty = true
  · rw [run_command_empty env cmd h1]
    exact Or.inr ⟨rfl, by decide⟩
  · have h1f : (trim_copy cmd).isEmpty = false := by simpa using h1
    by_cases h2 : 4096 < (trim_copy cmd).length
    · rw [run_command_too_long env cmd h1f h2]
      exact Or.inr ⟨rfl, by decide⟩
    · cases h3 : is_blocked_command (trim_copy cmd) with
      | some r =>
        rw [run_command_blocked env cmd r h1f h2 h3]
        exact Or.inr ⟨rfl, blocked_error_ne r⟩
      | none =>
        by_cases hp : env.pipeOk = true
        · by_cases hf : env.forkOk = true
          · rw [run_command_spawned env cmd h1f h2 h3 hp hf]
            exact Or.inl ⟨rfl, rfl⟩
          · have hff : env.forkOk = false := by simpa using hf
            rw [run_command_fork_failed env cmd h1f h2 h3 hp hff]
            exact Or.inr ⟨rfl, by decide⟩
        · have hpf : env.pipeOk = false := by simpa using hp
          rw [run_command_pipe_failed env cmd h1f h2 h3 hpf]
          exact Or.inr ⟨rfl, by decide⟩

/-- C7: pipe-creation failure and fork failure both make run_command
reject with the matching resource-error reason and an empty output, with
no process spawned. -/
theorem C7_resource_failures (env : SysEnv) (cmd : List Char)
    (hne : (trim_copy cmd).isEmpty = false)
    (hlen : ¬ 4096 < (trim_copy cmd).length)
    (hok : is_blocked_command (trim_copy cmd) = none) :
    (env.pipeOk = false →
      run_command env cmd =
        (⟨false, -1, false, "", "pipe failed"⟩, ⟨false, false⟩)) ∧
    (env.pipeOk = true → env.forkOk = false →
      run_command env cmd =
        (⟨false, -1, false, "", "fork failed"⟩, ⟨true, false⟩)) :=
  ⟨fun hp => run_command_pipe_failed env cmd hne hlen hok hp,
   fun hp hf => run_command_fork_failed env cmd hne hlen hok hp hf⟩

/-- Witness for C7 at concrete inputs: both resource failures on the
command "echo hi". -/
theorem C7_resource_failures_witness :
    run_command ⟨false, true, false, .exited 0, ""⟩ ("echo hi".toList) =
      (⟨false, -1, false, "", "pipe failed"⟩, ⟨false, false⟩) ∧
    run_command ⟨true, false, false, .exited 0, ""⟩ ("echo hi".toList) =
      (⟨false, -1, false, "", "fork failed"⟩, ⟨true, false⟩) :=
  ⟨(C7_resource_failures ⟨false, true, false, .exited 0, ""⟩ ("echo hi".toList)
      (by decide) (by decide) (by decide)).1 rfl,
   (C7_resource_failures ⟨true, false, false, .exited 0, ""⟩ ("echo hi".toList)
      (by decide) (by decide) (by decide)).2 rfl rfl⟩

/-- C9: with no environment token every request is unauthorized whatever
Authorization header it carries, and any request whose presented token
differs from the environment token is rejected as unauthorized; in both
cases the handler stops before any command logic, so nothing is
executed. -/
theorem C9_unauthorized (header body : List Char) (env : SysEnv) :
    handle_run none header body env = .unauthorized ∧
    (∀ t : List Char, parse_authorization header ≠ t →
      handle_run (some t) header body env = .unauthorized) := by
  constructor
  · rfl
  · intro t h
    have ha : authorize (some t) header = false := by
      show (if parse_authorization header = t then true else false) = false
      rw [if_neg h]
    simp [handle_run, ha]

/-- Witness for C9 at concrete inputs: no environment token, and a wrong
presented token, both end in the unauthorized outcome. -/
theorem C9_unauthorized_witness :
    handle_run none ("Bearer tok".toList) ("echo hi".toList) envDefault =
      .unauthorized ∧
    handle_run (some ("secret".toList)) ("Bearer tok".toList)
      ("echo hi".toList) envDefault = .unauthorized :=
  ⟨(C9_unauthorized ("Bearer tok".toList) ("echo hi".toList) envDefault).1,
   (C9_unauthorized ("Bearer tok".toList) ("echo hi".toList) envDefault).2
     ("secret".toList) (by decide)⟩

/-- C10: the Authorization header accepts a bare token: when the trimmed
header value carries no case-insensitive "bearer " prefix it is compared
as presented, so a bare token equal to the environment token authorizes;
when the prefix is present (in any case) the remaining seven characters
onward are trimmed before comparison. -/
theorem C10_header_parsing (value t : List Char) :
    (hasPfx ("bearer ".toList) (to_lower_copy (trim_copy value)) = false →
      parse_authorization value = trim_copy value ∧
      (trim_copy value = t → authorize (some t) value = true)) ∧
    (hasPfx ("bearer ".toList) (to_lower_copy (trim_copy value)) = true →
      parse_authorization value = trim_copy ((trim_copy value).drop 7)) := by
  constructor
  · intro hno
    have hp : parse_authorization value = trim_copy value := by
      unfold parse_authorization
      by_cases he : (trim_copy value).isEmpty = true
      · simp only [he, if_true]
        exact (List.isEmpty_iff.mp he).symm
      · have hno2 : ¬ hasPfx ("bearer ".toList) (to_lower_copy (trim_copy value)) = true := by
          intro hh
          rw [hno] at hh
          exact absurd hh (by decide)
        rw [if_neg he, if_neg hno2]
    refine ⟨hp, fun heq => ?_⟩
    show (if parse_authorization value = t then true else false) = true
    rw [hp, heq, if_pos rfl]
  · intro hyes
    have hef : (trim_copy value).isEmpty = false := by
      cases hEmp : trim_copy value with
      | nil =>
        rw [hEmp] at hyes
        exact absurd hyes (by decide)
      | cons a l => rfl
    have hef2 : ¬ (trim_copy value).isEmpty = true := by
      intro hh
      rw [hef] at hh
      exact absurd hh (by decide)
    unfold parse_authorization
    rw [if_neg hef2, if_pos hyes]

/-- Witness for C10 at concrete inputs: a bare token authorizes, and an
upper-case Bearer prefix with surrounding whitespace parses to the
trimmed remainder and authorizes. -/
theorem C10_header_parsing_witness :
    authorize (some ("tok".toList)) ("  tok ".toList) = true ∧
    parse_authorization ("  BEARER  tok  ".toList) = "tok".toList ∧
    authorize (some ("tok".toList)) ("  BEARER  tok  ".toList) = true := by
  refine ⟨((C10_header_parsing ("  tok ".toList) ("tok".toList)).1
      (by decide)).2 (by decide), ?_, ?_⟩
  · exact ((C10_header_parsing ("  BEARER  tok  ".toList) ("tok".toList)).2
      (by decide)).trans (by decide)
  · decide

/-- Witness for C6 at a concrete input: the empty command produces a
rejected result with a nonempty failure reason. -/
theorem C6_result_invariant_witness :
    ((run_command envDefault ("".toList)).1.ok = true ∧
      (run_command envDefault ("".toList)).1.error = "") ∨
    ((run_command envDefault ("".toList)).1.ok = false ∧
      (run_command envDefault ("".toList)).1.error ≠ "") :=
  C6_result_invariant envDefault ("".toList)

/-- Witness for C8 at a concrete input containing a quote, a backslash,
a newline and a tab. -/
theorem C8_json_roundtrip_witness :
    decode_json_string_like
      ('"' :: (json_escape ("a\"b\\c\n\td".toList) ++ ['"'])) =
      "a\"b\\c\n\td".toList :=
  C8_json_roundtrip ("a\"b\\c\n\td".toList)

end CmdServer
